import Mathlib

set_option maxRecDepth 10000

/-! Verification development for the accessibility-scanner backend.

The definitions below are a shallow embedding of the submission gateway
(apps/api/src/index.ts together with apps/api/src/validation/scanWebsiteSchema.ts),
the scan worker (apps/worker/src/index.ts) and the scan_results table
(migrations).  External effects (browser steps, database queries, the job
broker) are represented by explicit outcome parameters, so every definition is
executable and the theorems below settle the specified properties of the code.
-/

/-- Severity of an axe-core violation (the impact union type in
apps/api/src/index.ts). -/
inductive Impact where
  | minor
  | moderate
  | serious
  | critical
deriving DecidableEq, Repr

/-- One affected DOM node of a violation (interface AxeNode,
apps/api/src/index.ts; fields not read by the scoring code are omitted). -/
structure AxeNode where
  html : String
  target : List String
  failureSummary : Option String
deriving DecidableEq, Repr

/-- One axe-core rule violation (interface AxeViolation, apps/api/src/index.ts). -/
structure AxeViolation where
  id : String
  description : String
  help : String
  helpUrl : String
  impact : Option Impact
  tags : List String
  nodes : Option (List AxeNode)
deriving DecidableEq, Repr

/-- Result of running the audit engine (axe.AxeResults restricted to the
violations field, the only field the worker reads). -/
structure AxeResults where
  violations : List AxeViolation
deriving DecidableEq, Repr

/-- The per-node penalty weight: the switch statement inside
calculateAccessibilityScoreReport (apps/api/src/index.ts lines 302-317); the
default branch covers an absent impact. -/
def violationWeight : Option Impact → Int
  | some Impact.critical => 10
  | some Impact.serious => 5
  | some Impact.moderate => 2
  | some Impact.minor => 1
  | none => 1

/-- calculateAccessibilityScoreReport (apps/api/src/index.ts lines 296-320):
start from 100, subtract (number of affected nodes) * weight per violation,
then clamp into [0, 100].  Math.round on an integer value is the identity and
is therefore omitted. -/
def calculateAccessibilityScoreReport (axeViolations : List AxeViolation) : Int :=
  let score := axeViolations.foldl
    (fun sc violation =>
      let numFails : Int := ((violation.nodes.getD []).length : Int)
      sc - numFails * violationWeight violation.impact) 100
  max 0 (min 100 score)

/-- The qualitative health label (apps/api/src/index.ts, the
PageHealthStatusReport interface). -/
structure PageHealthStatusReport where
  level : String
  description : String
deriving DecidableEq, Repr

/-- calculatePageHealthReport (apps/api/src/index.ts lines 322-353). -/
def calculatePageHealthReport (violations : Option (List AxeViolation)) (score : Int) :
    PageHealthStatusReport :=
  let v := violations.getD []
  if v.any fun item => decide (item.impact = some Impact.critical) then
    { level := "Critical Issues"
      description := "Critical accessibility barriers found that severely impact usability. Urgent attention required." }
  else if v.any fun item => decide (item.impact = some Impact.serious) then
    { level := "Serious Concerns"
      description := "Serious accessibility issues identified. These likely create significant barriers for some users." }
  else if decide (score < 85) || v.any fun item => decide (item.impact = some Impact.moderate) then
    { level := "Needs Improvement"
      description := "Moderate or multiple minor issues found. Site is usable but could be improved for better accessibility." }
  else
    { level := "Good Shape"
      description := "Looking good! Only minor or no significant accessibility issues detected by automated checks." }

/-- JavaScript String.prototype.trim restricted to the ASCII whitespace the
gateway can receive. -/
def isJsSpace (c : Char) : Bool :=
  c == ' ' || c == '\t' || c == '\n' || c == '\r' || c == '\x0b' || c == '\x0c'

/-- Remove leading and trailing JavaScript whitespace. -/
def trimString (s : String) : String :=
  String.mk (((s.toList.dropWhile isJsSpace).reverse.dropWhile isJsSpace).reverse)

/-- JavaScript String.prototype.startsWith. -/
def strStartsWith (s pre : String) : Bool :=
  pre.toList.isPrefixOf s.toList

/-- The z.preprocess step of scanWebsiteSchema
(apps/api/src/validation/scanWebsiteSchema.ts lines 4-15): a non-blank string
without an http:// or https:// scheme prefix is trimmed and prefixed with
https://; every other value passes through unchanged. -/
def preprocessUrl (val : String) : String :=
  if trimString val != "" && !strStartsWith val "http://" && !strStartsWith val "https://" then
    "https://" ++ trimString val
  else
    val

/-- Scheme characters accepted after the initial letter of a URL scheme. -/
def isSchemeChar (c : Char) : Bool :=
  c.isAlphanum || c == '+' || c == '-' || c == '.'

/-- Split a character list into a scheme and the remainder after the colon;
none when the list does not begin with a well-formed scheme and colon. -/
def splitScheme (cs : List Char) : Option (List Char × List Char) :=
  match cs with
  | [] => none
  | c :: rest =>
    if c.isAlpha then
      match rest.span isSchemeChar with
      | (sch, ':' :: r) => some (c :: sch, r)
      | _ => none
    else none

/-- Forbidden host code points of the WHATWG URL standard. -/
def forbiddenHostChar (c : Char) : Bool :=
  c == ' ' || c == '#' || c == '/' || c == ':' || c == '<' || c == '>' || c == '?' ||
  c == '@' || c == '[' || c == '\\' || c == ']' || c == '^' || c == '|' ||
  c == '\t' || c == '\n' || c == '\r' || c == '\x00'

/-- The characters after the last at sign (the host-port part of an authority,
everything before it being userinfo). -/
def afterLastAt (cs : List Char) : List Char :=
  (cs.reverse.takeWhile fun c => c != '@').reverse

/-- Decimal value of a digit list. -/
def digitsToNat (cs : List Char) : Nat :=
  cs.foldl (fun n c => n * 10 + (c.toNat - 48)) 0

/-- A valid (possibly empty) port: digits only, value at most 65535. -/
def validPort (cs : List Char) : Bool :=
  cs.all (fun c => c.isDigit) && decide (digitsToNat cs ≤ 65535)

/-- Modelled from the spec: the runtime URL constructor invoked by the zod
url() check (external to the repository), which accepts exactly the
syntactically well-formed absolute URLs.  The model follows the WHATWG URL
parser for the http and https schemes: trim the input, drop tabs and newlines,
require a scheme, skip the slashes, and require a non-empty host without
forbidden host code points and a valid port.  Other schemes are treated as
opaque and accepted; bracketed IPv6 hosts and percent-encoding validation are
out of scope of the claims and not modelled. -/
def isValidAbsoluteUrl (input : String) : Bool :=
  let cs := (trimString input).toList.filter fun c => !(c == '\t' || c == '\n' || c == '\r')
  match splitScheme cs with
  | none => false
  | some (sch, rest) =>
    let scheme := String.mk (sch.map Char.toLower)
    if scheme == "http" || scheme == "https" then
      let r := rest.dropWhile fun c => c == '/' || c == '\\'
      let authority := r.takeWhile fun c => !(c == '/' || c == '\\' || c == '?' || c == '#')
      let hostPort := afterLastAt authority
      let host := hostPort.takeWhile fun c => c != ':'
      let portPart := (hostPort.dropWhile fun c => c != ':').drop 1
      !host.isEmpty && host.all (fun c => !forbiddenHostChar c) && validPort portPart
    else
      true

/-- The normalization rule exactly as the claim words it: when the submitted
string lacks an http:// or https:// scheme prefix, https:// is prepended to it
(with no other change) before validation.  Stated for comparison with the
preprocessUrl definition taken from the source. -/
def claimNormalize (u : String) : String :=
  if !strStartsWith u "http://" && !strStartsWith u "https://" then "https://" ++ u else u

/-- The job record the gateway enqueues (scanQueue.add in
apps/api/src/index.ts lines 182-186). -/
structure EnqueuedJob where
  jobId : String
  submittedUrl : String
  originalJobId : String
deriving DecidableEq, Repr

/-- Response of the scan-website endpoint: 202 with body fields, 400, or 500. -/
inductive HttpResponse where
  | accepted (jobId : String) (submittedUrl : String)
  | badRequest
  | serverError
deriving DecidableEq, Repr

/-- The POST /api/scan-website handler (apps/api/src/index.ts lines 163-207):
validate the body through scanWebsiteSchema, mint a job id (freshId models
uuidv4()), enqueue, and answer 202; validation failure answers 400 with
nothing enqueued; a failed enqueue (enqueueOk false, the broker unreachable)
answers 500.  A missing url field is one of the validation failures. -/
def scanWebsiteEndpoint (freshId : String) (enqueueOk : Bool) (urlField : Option String) :
    HttpResponse × Option EnqueuedJob :=
  match urlField with
  | none => (HttpResponse.badRequest, none)
  | some u =>
    let url := preprocessUrl u
    if isValidAbsoluteUrl url then
      if enqueueOk then
        (HttpResponse.accepted freshId url,
         some { jobId := freshId, submittedUrl := url, originalJobId := freshId })
      else (HttpResponse.serverError, none)
    else (HttpResponse.badRequest, none)

/-- The payload of a scan job (interface ScanJobData, worker line 60). -/
structure ScanJobData where
  submittedUrl : String
  originalJobId : String
deriving DecidableEq, Repr

/-- The leased job as the worker sees it: the broker-issued id (string or
undefined in the BullMQ typing) and the possibly missing payload (the code
reads job.data with optional chaining throughout). -/
structure JobInfo where
  id : Option String
  data : Option ScanJobData
deriving DecidableEq, Repr

/-- The value the processor resolves with (interface ScanJobResult, worker
lines 65-73). -/
structure ScanJobResult where
  success : Bool
  jobId : Option String
  data : Option ScanJobData
  violations : Option (List AxeViolation)
  errorMessage : Option String
  pageTitle : Option String
  actualUrl : Option String
deriving DecidableEq, Repr

/-- Outcome of each external effect of one pipeline run, in program order:
puppeteer.launch, browser.newPage, page.goto (ok carries response.url() with
none for a null or empty response URL), page.title, the axe-core source read,
page.evaluate of the axe script, page.screenshot, and the page.evaluate that
runs axe.  An error value is a thrown exception carrying its message. -/
structure PipelineEnv where
  launch : Except String Unit
  newPage : Except String Unit
  goto : Except String (Option String)
  title : Except String String
  readAxeScript : Except String String
  injectAxe : Except String Unit
  screenshot : Except String String
  axeRun : Except String AxeResults
deriving Repr

/-- The scanResult accumulator record of processScanJob (worker lines 85-94). -/
structure ScanState where
  actualUrl : Option String
  pageTitle : Option String
  scanSucceeded : Bool
  axeResults : Option AxeResults
  processingError : Option String
  screenshot : Option String
deriving DecidableEq, Repr

/-- The initial scanResult value (worker lines 85-94): scanSucceeded false,
all other fields unset. -/
def initialScanState : ScanState :=
  { actualUrl := none, pageTitle := none, scanSucceeded := false,
    axeResults := none, processingError := none, screenshot := none }

/-- The try/catch/finally body of processScanJob (worker lines 96-205).  The
first component is the scanResult record after the catch ran (any exception
outside the screenshot sub-try lands in the outer catch, which stores the
message as processingError); the second records whether browser.close() ran in
the finally clause, which happens exactly when puppeteer.launch succeeded. -/
def processScanPipeline (env : PipelineEnv) (url : String) : ScanState × Bool :=
  match env.launch with
  | Except.error e => ({ initialScanState with processingError := some e }, false)
  | Except.ok _ =>
    match env.newPage with
    | Except.error e => ({ initialScanState with processingError := some e }, true)
    | Except.ok _ =>
      match env.goto with
      | Except.error e => ({ initialScanState with processingError := some e }, true)
      | Except.ok responseUrl =>
        let s1 := { initialScanState with actualUrl := some (responseUrl.getD url) }
        match env.title with
        | Except.error e => ({ s1 with processingError := some e }, true)
        | Except.ok t =>
          let s2 := { s1 with pageTitle := some t }
          match env.readAxeScript with
          | Except.error e => ({ s2 with processingError := some e }, true)
          | Except.ok _ =>
            match env.injectAxe with
            | Except.error e => ({ s2 with processingError := some e }, true)
            | Except.ok _ =>
              let s3 :=
                match env.screenshot with
                | Except.error _ => s2
                | Except.ok shot => { s2 with screenshot := some shot }
              match env.axeRun with
              | Except.error e => ({ s3 with processingError := some e }, true)
              | Except.ok results =>
                ({ s3 with axeResults := some results, scanSucceeded := true }, true)

/-- Worker line 114: job.data?.submittedUrl || the fallback; the empty string
is falsy in JavaScript, so it also selects the fallback. -/
def urlToScan (data : Option ScanJobData) : String :=
  match data with
  | some d => if d.submittedUrl == "" then "https://example.com" else d.submittedUrl
  | none => "https://example.com"

/-- One row of the scan_results table (migration part creating scan_results
plus the later page_screenshot column).  The jsonb violations column keeps the
structured list: JSON serialisation is modelled as the identity on it. -/
structure ScanRow where
  job_id : Option String
  original_job_id : Option String
  submitted_url : Option String
  actual_url : Option String
  page_title : Option String
  scan_success : Bool
  violations : Option (List AxeViolation)
  error_message : Option String
  page_screenshot : Option String
deriving DecidableEq, Repr

/-- The VALUES row built by saveScanResultToDb (worker lines 262-274). -/
def mkScanRow (job : JobInfo) (s : ScanState) : ScanRow :=
  { job_id := job.id
    original_job_id := job.data.map ScanJobData.originalJobId
    submitted_url := job.data.map ScanJobData.submittedUrl
    actual_url := s.actualUrl
    page_title := s.pageTitle
    scan_success := s.scanSucceeded
    violations := if s.scanSucceeded then s.axeResults.map AxeResults.violations else none
    error_message := if s.scanSucceeded then none else s.processingError
    page_screenshot :=
      match s.screenshot with
      | some shot => if shot == "" then none else some shot
      | none => none }

/-- The INSERT INTO scan_results statement (worker lines 255-276) against the
migrated table: job_id carries a unique constraint and submitted_url is NOT
NULL, and the statement has no ON CONFLICT clause, so Postgres rejects a
duplicate non-null job_id instead of updating the existing row. -/
def scanResultsInsert (t : List ScanRow) (r : ScanRow) : Except String (List ScanRow) :=
  if r.submitted_url.isNone then
    Except.error "null value in column submitted_url of relation scan_results violates not-null constraint"
  else if r.job_id.isSome = true ∧ ∃ row ∈ t, row.job_id = r.job_id then
    Except.error "duplicate key value violates unique constraint scan_results_job_id_key"
  else
    Except.ok (t ++ [r])

/-- What saveScanResultToDb leaves behind: the table and the pair it returns. -/
structure DbSaveOutcome where
  table : List ScanRow
  dbSaveSuccess : Bool
  dbErrorMessage : Option String
deriving DecidableEq, Repr

/-- saveScanResultToDb (worker lines 243-301): build the row, run the insert,
catch any database error and turn it into dbSaveSuccess false with the
prefixed message.  dbFault models pool.query rejecting for external reasons
(for example a lost connection) before the row is considered. -/
def saveScanResultToDb (dbFault : Option String) (t : List ScanRow) (job : JobInfo)
    (s : ScanState) : DbSaveOutcome :=
  match dbFault with
  | some msg =>
    { table := t, dbSaveSuccess := false,
      dbErrorMessage := some ("Failed to save scan result to database: " ++ msg) }
  | none =>
    match scanResultsInsert t (mkScanRow job s) with
    | Except.error msg =>
      { table := t, dbSaveSuccess := false,
        dbErrorMessage := some ("Failed to save scan result to database: " ++ msg) }
    | Except.ok t2 => { table := t2, dbSaveSuccess := true, dbErrorMessage := none }

/-- processScanJob after the urlToScan binding (worker lines 114-241): run the
pipeline, persist, compute overallJobSuccess = scanSucceeded && dbSaveSuccess,
and resolve with the corresponding ScanJobResult.  An Except.error value would
be a rejected processor promise; the code catches every pipeline and database
error, so every branch resolves with Except.ok. -/
def processScanJobOn (env : PipelineEnv) (dbFault : Option String) (t : List ScanRow)
    (job : JobInfo) (url : String) : Except String ScanJobResult × List ScanRow :=
  let s := (processScanPipeline env url).1
  let save := saveScanResultToDb dbFault t job s
  let overallJobSuccess := s.scanSucceeded && save.dbSaveSuccess
  if overallJobSuccess then
    (Except.ok { success := true, jobId := job.id, data := job.data,
                 violations := s.axeResults.map AxeResults.violations,
                 errorMessage := none, pageTitle := s.pageTitle, actualUrl := s.actualUrl },
     save.table)
  else
    let base := s.processingError.getD ""
    let withDb :=
      match save.dbErrorMessage with
      | some dmsg => if base == "" then dmsg else base ++ "; " ++ dmsg
      | none => base
    let finalErrorMessage := if withDb == "" then "Unknown processing or DB error" else withDb
    (Except.ok { success := false, jobId := job.id, data := job.data,
                 violations := none, errorMessage := some finalErrorMessage,
                 pageTitle := s.pageTitle, actualUrl := s.actualUrl },
     save.table)

/-- The whole processScanJob processor (worker lines 76-241). -/
def processScanJob (env : PipelineEnv) (dbFault : Option String) (t : List ScanRow)
    (job : JobInfo) : Except String ScanJobResult × List ScanRow :=
  processScanJobOn env dbFault t job (urlToScan job.data)

/-- How the broker records one delivery attempt. -/
inductive BrokerAck where
  | completed
  | failedAttempt
deriving DecidableEq, Repr

/-- Modelled from the spec (sections 4.2 and 4.3) and the BullMQ processor
contract (external to the repository): the broker acknowledges the job as
completed, never to be redelivered, exactly when the processor promise
resolves; a rejected promise counts as a failed attempt, redelivered with
backoff until the attempt limit. -/
def brokerAck (outcome : Except String ScanJobResult) : BrokerAck :=
  match outcome with
  | Except.ok _ => BrokerAck.completed
  | Except.error _ => BrokerAck.failedAttempt

/-- Whether a step outcome is a normal return. -/
def stepOk {α : Type} (e : Except String α) : Bool :=
  match e with
  | Except.ok _ => true
  | Except.error _ => false

/-- At most one row per non-null job_id: the invariant of the unique
constraint of the scan_results table. -/
def atMostOnePerJobId (t : List ScanRow) : Prop :=
  List.Pairwise (fun a b => a.job_id.isSome = true → a.job_id ≠ b.job_id) t

/-- The worker pool size passed to the BullMQ Worker (worker line 309). -/
def workerConcurrency : Nat := 5

/-- An environment in which every pipeline step succeeds. -/
def envAllOk : PipelineEnv :=
  { launch := Except.ok ()
    newPage := Except.ok ()
    goto := Except.ok (some "https://example.com/")
    title := Except.ok "Example Domain"
    readAxeScript := Except.ok "axe source"
    injectAxe := Except.ok ()
    screenshot := Except.ok "base64jpegdata"
    axeRun := Except.ok { violations := [] } }

/-- A well-formed leased job. -/
def job0 : JobInfo :=
  { id := some "job-1"
    data := some { submittedUrl := "https://example.com", originalJobId := "job-1" } }

/-- A run in which only the page.title call throws. -/
def envTitleThrow : PipelineEnv :=
  { envAllOk with title := Except.error "Protocol error: Target closed" }

/-- A run in which puppeteer.launch throws an exception whose message is the
empty string (new Error() carries an empty message). -/
def envLaunchEmptyError : PipelineEnv :=
  { envAllOk with launch := Except.error "" }

/-- The scan_results row stored by a first successful delivery of job0 under
envAllOk. -/
def storedRow0 : ScanRow :=
  { job_id := some "job-1", original_job_id := some "job-1"
    submitted_url := some "https://example.com", actual_url := some "https://example.com/"
    page_title := some "Example Domain", scan_success := true
    violations := some [], error_message := none, page_screenshot := some "base64jpegdata" }

/-- Decidable equality for step and processor outcomes. -/
instance {ε α : Type} [DecidableEq ε] [DecidableEq α] : DecidableEq (Except ε α) := fun a b =>
  match a, b with
  | Except.ok x, Except.ok y =>
    if h : x = y then Decidable.isTrue (by rw [h]) else
      Decidable.isFalse (by intro hc; cases hc; exact h rfl)
  | Except.error x, Except.error y =>
    if h : x = y then Decidable.isTrue (by rw [h]) else
      Decidable.isFalse (by intro hc; cases hc; exact h rfl)
  | Except.ok _, Except.error _ => Decidable.isFalse (by intro hc; cases hc)
  | Except.error _, Except.ok _ => Decidable.isFalse (by intro hc; cases hc)

/-- Folding the per-violation penalty subtraction equals subtracting the sum. -/
theorem foldl_sub_penalty (f : AxeViolation → Int) (vs : List AxeViolation) (a : Int) :
    vs.foldl (fun sc v => sc - f v) a = a - (vs.map f).sum := by
  induction vs generalizing a with
  | nil => simp
  | cons v tl ih => simp only [List.foldl_cons, ih, List.map_cons, List.sum_cons]; ring

/-- The pipeline result is a success exactly when every step other than the
screenshot returned normally. -/
theorem pipeline_success_eq (env : PipelineEnv) (url : String) :
    (processScanPipeline env url).1.scanSucceeded =
      (stepOk env.launch && stepOk env.newPage && stepOk env.goto && stepOk env.title &&
       stepOk env.readAxeScript && stepOk env.injectAxe && stepOk env.axeRun) := by
  obtain ⟨l, np, g, ti, ra, ia, sc, ar⟩ := env
  cases l <;> cases np <;> cases g <;> cases ti <;> cases ra <;> cases ia <;> cases sc <;>
    cases ar <;> simp [processScanPipeline, stepOk, initialScanState]

/-- A pipeline run either succeeds or records the thrown message. -/
theorem pipeline_success_or_error (env : PipelineEnv) (url : String) :
    (processScanPipeline env url).1.scanSucceeded = true ∨
    (processScanPipeline env url).1.processingError.isSome = true := by
  obtain ⟨l, np, g, ti, ra, ia, sc, ar⟩ := env
  cases l <;> cases np <;> cases g <;> cases ti <;> cases ra <;> cases ia <;> cases sc <;>
    cases ar <;> simp [processScanPipeline, initialScanState]

/-- A successful pipeline run carries the audit results. -/
theorem pipeline_axe_presence (env : PipelineEnv) (url : String) :
    (processScanPipeline env url).1.scanSucceeded = false ∨
    (processScanPipeline env url).1.axeResults.isSome = true := by
  obtain ⟨l, np, g, ti, ra, ia, sc, ar⟩ := env
  cases l <;> cases np <;> cases g <;> cases ti <;> cases ra <;> cases ia <;> cases sc <;>
    cases ar <;> simp [processScanPipeline, initialScanState]

/-- The processor promise always resolves: every pipeline or database error is
caught, so processScanJobOn never returns Except.error. -/
theorem processScanJobOn_isOk (env : PipelineEnv) (dbFault : Option String)
    (t : List ScanRow) (job : JobInfo) (url : String) :
    ∃ r, (processScanJobOn env dbFault t job url).1 = Except.ok r := by
  simp only [processScanJobOn]
  split
  · exact ⟨_, rfl⟩
  · exact ⟨_, rfl⟩

/-- The table left behind by processScanJobOn is the one the save step left. -/
theorem processScanJobOn_table (env : PipelineEnv) (dbFault : Option String)
    (t : List ScanRow) (job : JobInfo) (url : String) :
    (processScanJobOn env dbFault t job url).2 =
      (saveScanResultToDb dbFault t job (processScanPipeline env url).1).table := by
  simp only [processScanJobOn]
  split
  · rfl
  · rfl

/-- The save step leaves the table unchanged, or appends the one new row after
the unique-constraint check on its job_id passed. -/
theorem saveScanResultToDb_table_cases (dbFault : Option String) (t : List ScanRow)
    (job : JobInfo) (s : ScanState) :
    (saveScanResultToDb dbFault t job s).table = t ∨
    ((saveScanResultToDb dbFault t job s).table = t ++ [mkScanRow job s] ∧
     ¬((mkScanRow job s).job_id.isSome = true ∧
        ∃ row ∈ t, row.job_id = (mkScanRow job s).job_id)) := by
  unfold saveScanResultToDb
  cases dbFault with
  | some msg => exact Or.inl rfl
  | none =>
    unfold scanResultsInsert
    by_cases h1 : (mkScanRow job s).submitted_url.isNone = true
    · left; simp [h1]
    · by_cases h2 : (mkScanRow job s).job_id.isSome = true ∧
          ∃ row ∈ t, row.job_id = (mkScanRow job s).job_id
      · left; simp [h1, h2]
      · right
        refine ⟨?_, h2⟩
        simp [h1, h2]

/-- Claim C8: the accessibility score is a pure function of the violations
list, equal to 100 minus the sum over violations of (affected node count times
the impact weight: critical 10, serious 5, moderate 2, minor or unknown 1),
clamped into the inclusive integer interval from 0 to 100. -/
theorem accessibility_score_formula (vs : List AxeViolation) :
    calculateAccessibilityScoreReport vs =
      max 0 (min 100 (100 - (vs.map fun v =>
        ((v.nodes.getD []).length : Int) * violationWeight v.impact).sum)) ∧
    0 ≤ calculateAccessibilityScoreReport vs ∧
    calculateAccessibilityScoreReport vs ≤ 100 := by
  have h := foldl_sub_penalty
    (fun v => ((v.nodes.getD []).length : Int) * violationWeight v.impact) vs 100
  have hmain : calculateAccessibilityScoreReport vs =
      max 0 (min 100 (100 - (vs.map fun v =>
        ((v.nodes.getD []).length : Int) * violationWeight v.impact).sum)) := by
    simp only [calculateAccessibilityScoreReport]
    rw [h]
  refine ⟨hmain, ?_, ?_⟩
  · rw [hmain]; exact le_max_left 0 _
  · rw [hmain]
    exact max_le (by norm_num) (min_le_left 100 _)

/-- Claim C9: the health label is Critical Issues when some violation is
critical; otherwise Serious Concerns when some violation is serious; otherwise
Needs Improvement when the score is below 85 or some violation is moderate;
otherwise Good Shape. -/
theorem page_health_label_rule (vs : List AxeViolation) (score : Int) :
    (calculatePageHealthReport (some vs) score).level =
      if ∃ x ∈ vs, x.impact = some Impact.critical then "Critical Issues"
      else if ∃ x ∈ vs, x.impact = some Impact.serious then "Serious Concerns"
      else if score < 85 ∨ ∃ x ∈ vs, x.impact = some Impact.moderate then "Needs Improvement"
      else "Good Shape" := by
  by_cases h1 : ∃ x ∈ vs, x.impact = some Impact.critical
  · simp [calculatePageHealthReport, List.any_eq_true, h1]
  · by_cases h2 : ∃ x ∈ vs, x.impact = some Impact.serious
    · simp [calculatePageHealthReport, List.any_eq_true, h1, h2]
    · by_cases h3 : score < 85 ∨ ∃ x ∈ vs, x.impact = some Impact.moderate
      · simp [calculatePageHealthReport, List.any_eq_true, Bool.or_eq_true,
          decide_eq_true_eq, h1, h2, h3]
      · simp [calculatePageHealthReport, List.any_eq_true, Bool.or_eq_true,
          decide_eq_true_eq, h1, h2, h3]

/-- Claim C6: whenever the browser launch step succeeded, the finally clause
runs browser.close() before processScanJob returns, on every exit path. -/
theorem pipeline_releases_browser (env : PipelineEnv) (url : String)
    (h : stepOk env.launch = true) : (processScanPipeline env url).2 = true := by
  obtain ⟨l, np, g, ti, ra, ia, sc, ar⟩ := env
  cases l with
  | error e => simp [stepOk] at h
  | ok u =>
    cases np <;> cases g <;> cases ti <;> cases ra <;> cases ia <;> cases sc <;> cases ar <;>
      simp [processScanPipeline, initialScanState]

/-- Witness for pipeline_releases_browser: a concrete successful launch whose
run closes the browser. -/
theorem pipeline_releases_browser_witness :
    stepOk envAllOk.launch = true ∧ (processScanPipeline envAllOk "https://example.com").2 = true :=
  ⟨by decide, pipeline_releases_browser envAllOk "https://example.com" (by decide)⟩

/-- Claim C10: a leased job whose payload is missing or whose submittedUrl is
the empty string is not rejected: the worker substitutes the fallback URL
https://example.com, runs the full pipeline on it, and still resolves
normally. -/
theorem worker_missing_url_fallback (env : PipelineEnv) (dbFault : Option String)
    (t : List ScanRow) (idv : Option String) (orig : String) :
    urlToScan none = "https://example.com" ∧
    urlToScan (some { submittedUrl := "", originalJobId := orig }) = "https://example.com" ∧
    processScanJob env dbFault t { id := idv, data := none } =
      processScanJobOn env dbFault t { id := idv, data := none } "https://example.com" ∧
    processScanJob env dbFault t
        { id := idv, data := some { submittedUrl := "", originalJobId := orig } } =
      processScanJobOn env dbFault t
        { id := idv, data := some { submittedUrl := "", originalJobId := orig } }
        "https://example.com" ∧
    brokerAck (processScanJob env dbFault t { id := idv, data := none }).1 =
      BrokerAck.completed := by
  refine ⟨rfl, rfl, rfl, rfl, ?_⟩
  obtain ⟨r, hr⟩ :=
    processScanJobOn_isOk env dbFault t { id := idv, data := none } (urlToScan none)
  simp only [processScanJob]
  rw [hr]
  rfl

/-- Claim C4 counterexample: two runs that differ only in the page.title step
show that a throwing title read aborts the pipeline and flips success to
false, contrary to the claim that a step 3 failure never does. -/
theorem pipeline_title_throw_counterexample :
    (processScanPipeline envAllOk "https://example.com").1.scanSucceeded = true ∧
    (processScanPipeline envTitleThrow "https://example.com").1.scanSucceeded = false ∧
    (processScanPipeline envTitleThrow "https://example.com").1.processingError =
      some "Protocol error: Target closed" := by decide

/-- Claim C4 (amended): a pipeline run succeeds exactly when browser launch,
page creation, navigation, the title read, the audit-engine source read, its
injection and the audit execution all return normally - the screenshot step is
the only one whose outcome is irrelevant; a failed run records the thrown
message; and changing only the screenshot outcome never changes success. -/
theorem pipeline_failure_policy (env : PipelineEnv) (url : String) :
    ((processScanPipeline env url).1.scanSucceeded = true ↔
      (stepOk env.launch = true ∧ stepOk env.newPage = true ∧ stepOk env.goto = true ∧
       stepOk env.title = true ∧ stepOk env.readAxeScript = true ∧
       stepOk env.injectAxe = true ∧ stepOk env.axeRun = true)) ∧
    ((processScanPipeline env url).1.scanSucceeded = false →
      (processScanPipeline env url).1.processingError.isSome = true) ∧
    (∀ shot, (processScanPipeline { env with screenshot := shot } url).1.scanSucceeded =
      (processScanPipeline env url).1.scanSucceeded) := by
  refine ⟨?_, ?_, ?_⟩
  · rw [pipeline_success_eq]
    simp [Bool.and_eq_true, and_assoc]
  · intro h
    rcases pipeline_success_or_error env url with h1 | h1
    · exact absurd h1 (by simp [h])
    · exact h1
  · intro shot
    rw [pipeline_success_eq, pipeline_success_eq]

/-- Witness for pipeline_failure_policy: the all-steps-normal run succeeds. -/
theorem pipeline_failure_policy_witness :
    (processScanPipeline envAllOk "https://example.com").1.scanSucceeded = true :=
  (pipeline_failure_policy envAllOk "https://example.com").1.mpr
    ⟨by decide, by decide, by decide, by decide, by decide, by decide, by decide⟩

/-- Claim C1: evaluating the worker at the failing input - the pipeline
succeeds and the scan_results write throws - shows the processor still
resolves, carrying success false; under the broker contract a resolved
processor is acknowledged as completed, so the attempt is not reported failed,
no retry happens, and no row was stored. -/
theorem processScanJob_persistFailure_acked :
    (processScanPipeline envAllOk (urlToScan job0.data)).1.scanSucceeded = true ∧
    processScanJob envAllOk (some "connection terminated unexpectedly") [] job0 =
      (Except.ok
        { success := false, jobId := some "job-1"
          data := some { submittedUrl := "https://example.com", originalJobId := "job-1" }
          violations := none
          errorMessage := some "Failed to save scan result to database: connection terminated unexpectedly"
          pageTitle := some "Example Domain", actualUrl := some "https://example.com/" },
       ([] : List ScanRow)) ∧
    brokerAck (processScanJob envAllOk (some "connection terminated unexpectedly") [] job0).1 =
      BrokerAck.completed := by decide

/-- Claim C2 counterexample: persistence is a blind insert, not an upsert - a
first delivery of job0 stores one row, and redelivering the same job id makes
the write fail on the unique constraint (dbSaveSuccess false, job resolved
with success false) instead of succeeding idempotently. -/
theorem saveScanResultToDb_not_upsert_counterexample :
    (processScanJob envAllOk none [] job0).2 = [storedRow0] ∧
    (saveScanResultToDb none [storedRow0] job0
        (processScanPipeline envAllOk (urlToScan job0.data)).1).dbSaveSuccess = false ∧
    (saveScanResultToDb none [storedRow0] job0
        (processScanPipeline envAllOk (urlToScan job0.data)).1).table = [storedRow0] ∧
    (processScanJob envAllOk none [storedRow0] job0).1 =
      Except.ok
        { success := false, jobId := some "job-1"
          data := some { submittedUrl := "https://example.com", originalJobId := "job-1" }
          violations := none
          errorMessage := some "Failed to save scan result to database: duplicate key value violates unique constraint scan_results_job_id_key"
          pageTitle := some "Example Domain", actualUrl := some "https://example.com/" } := by
  decide

/-- Claim C2 (amended): the unique constraint on scan_results.job_id, not an
upsert, is what keeps at most one row per job id - every processScanJob run
preserves the at-most-one-row-per-non-null-job_id invariant, because a
duplicate insert is rejected rather than applied. -/
theorem processScanJob_preserves_atMostOnePerJobId (env : PipelineEnv)
    (dbFault : Option String) (t : List ScanRow) (job : JobInfo)
    (h : atMostOnePerJobId t) : atMostOnePerJobId (processScanJob env dbFault t job).2 := by
  rw [processScanJob, processScanJobOn_table]
  rcases saveScanResultToDb_table_cases dbFault t job
      (processScanPipeline env (urlToScan job.data)).1 with hcase | ⟨heq, hguard⟩
  · rw [hcase]; exact h
  · rw [heq]
    unfold atMostOnePerJobId at h ⊢
    rw [List.pairwise_append]
    refine ⟨h, List.pairwise_singleton _ _, ?_⟩
    intro a ha b hb hsome
    simp only [List.mem_singleton] at hb
    subst hb
    push_neg at hguard
    by_cases hr : (mkScanRow job (processScanPipeline env (urlToScan job.data)).1).job_id.isSome = true
    · exact hguard hr a ha
    · intro hEq
      exact hr (hEq ▸ hsome)

/-- Witness for processScanJob_preserves_atMostOnePerJobId starting from the
empty table. -/
theorem processScanJob_preserves_atMostOnePerJobId_witness :
    atMostOnePerJobId (processScanJob envAllOk none [] job0).2 :=
  processScanJob_preserves_atMostOnePerJobId envAllOk none [] job0 List.Pairwise.nil

/-- Claim C3 counterexample: a pipeline exception whose message is the empty
string (a bare new Error()) is stored verbatim, so the failed row carries an
error_message that is present but empty, contrary to the non-empty part of the
claim. -/
theorem scanRow_empty_error_message_counterexample :
    (processScanJob envLaunchEmptyError none [] job0).2 =
      [{ job_id := some "job-1", original_job_id := some "job-1"
         submitted_url := some "https://example.com", actual_url := none
         page_title := none, scan_success := false
         violations := none, error_message := some "", page_screenshot := none }] := by
  decide

/-- Claim C3 (amended): every row the worker builds satisfies: success implies
violations present (possibly empty) and error_message absent; failure implies
violations absent and error_message present - though possibly equal to the
empty string, since the caught message is stored unchecked. -/
theorem scanRow_shape (env : PipelineEnv) (job : JobInfo) :
    ((mkScanRow job (processScanPipeline env (urlToScan job.data)).1).scan_success = true →
      (mkScanRow job (processScanPipeline env (urlToScan job.data)).1).violations.isSome = true ∧
      (mkScanRow job (processScanPipeline env (urlToScan job.data)).1).error_message = none) ∧
    ((mkScanRow job (processScanPipeline env (urlToScan job.data)).1).scan_success = false →
      (mkScanRow job (processScanPipeline env (urlToScan job.data)).1).violations = none ∧
      (mkScanRow job (processScanPipeline env (urlToScan job.data)).1).error_message.isSome = true) := by
  constructor
  · intro h
    have hsucc : (processScanPipeline env (urlToScan job.data)).1.scanSucceeded = true := h
    constructor
    · rcases pipeline_axe_presence env (urlToScan job.data) with h1 | h1
      · exact absurd hsucc (by simp [h1])
      · obtain ⟨ar, har⟩ := Option.isSome_iff_exists.mp h1
        simp [mkScanRow, hsucc, har]
    · simp [mkScanRow, hsucc]
  · intro h
    have hfail : (processScanPipeline env (urlToScan job.data)).1.scanSucceeded = false := h
    refine ⟨by simp [mkScanRow, hfail], ?_⟩
    rcases pipeline_success_or_error env (urlToScan job.data) with h1 | h1
    · exact absurd h1 (by simp [hfail])
    · simpa [mkScanRow, hfail] using h1

/-- Witness for scanRow_shape: the successful concrete run stores violations
and no error message. -/
theorem scanRow_shape_witness :
    (mkScanRow job0 (processScanPipeline envAllOk (urlToScan job0.data)).1).violations.isSome = true ∧
    (mkScanRow job0 (processScanPipeline envAllOk (urlToScan job0.data)).1).error_message = none :=
  (scanRow_shape envAllOk job0).1 (by decide)

/-- Claim C5 counterexample: for the input beginning with a space, the claim
normalization produces a string with a space after the scheme, which is not a
well-formed absolute URL - so the claim predicts 400 with nothing enqueued -
while the code trims the input before prefixing and accepts it with 202,
enqueuing a job. -/
theorem scanWebsite_normalization_counterexample :
    claimNormalize " example.com" = "https:// example.com" ∧
    isValidAbsoluteUrl "https:// example.com" = false ∧
    scanWebsiteEndpoint "81b4f1cd-3cde-4de2-8a5c-0101c7c1a9dd" true (some " example.com") =
      (HttpResponse.accepted "81b4f1cd-3cde-4de2-8a5c-0101c7c1a9dd" "https://example.com",
       some { jobId := "81b4f1cd-3cde-4de2-8a5c-0101c7c1a9dd"
              submittedUrl := "https://example.com"
              originalJobId := "81b4f1cd-3cde-4de2-8a5c-0101c7c1a9dd" }) := by decide

/-- Claim C5 (amended): a url string that is non-blank after trimming and
lacks an http:// or https:// scheme prefix is normalized by trimming it and
prepending https:// before validation; when the normalized string is not a
well-formed absolute URL the request answers 400 and nothing is enqueued;
otherwise, when the broker accepts the enqueue, a job carrying the minted id
is enqueued and answered with 202. -/
theorem scanWebsite_validation (u : String) (freshId : String) :
    (trimString u ≠ "" → strStartsWith u "http://" = false → strStartsWith u "https://" = false →
      preprocessUrl u = "https://" ++ trimString u) ∧
    (isValidAbsoluteUrl (preprocessUrl u) = false →
      scanWebsiteEndpoint freshId true (some u) = (HttpResponse.badRequest, none)) ∧
    (isValidAbsoluteUrl (preprocessUrl u) = true →
      scanWebsiteEndpoint freshId true (some u) =
        (HttpResponse.accepted freshId (preprocessUrl u),
         some { jobId := freshId, submittedUrl := preprocessUrl u, originalJobId := freshId })) := by
  refine ⟨?_, ?_, ?_⟩
  · intro h1 h2 h3
    simp [preprocessUrl, h2, h3, bne_iff_ne, h1]
  · intro h
    simp [scanWebsiteEndpoint, h]
  · intro h
    simp [scanWebsiteEndpoint, h]

/-- Witness for scanWebsite_validation: the scheme-less example.com input is
normalized to https prefix form, and the unparseable input answers 400 with
nothing enqueued. -/
theorem scanWebsite_validation_witness :
    preprocessUrl "example.com" = "https://example.com" ∧
    scanWebsiteEndpoint "3f2c7a1e-0000-4000-8000-123456789abc" true (some "not a url") =
      (HttpResponse.badRequest, none) :=
  ⟨((scanWebsite_validation "example.com" "x").1 (by decide) (by decide) (by decide)).trans
      (by decide),
   (scanWebsite_validation "not a url" "3f2c7a1e-0000-4000-8000-123456789abc").2.1 (by decide)⟩
